import Mathlib

/-!
Shallow embedding of the browser-side voice-assistant controller
(class `AIVoiceAssistant`) of this repository, together with proofs of
its specified properties.

Modelling conventions:
* JS strings are Lean `String`; character-level operations are carried
  out on `String.data` so that every definition reduces in the kernel.
* `Math.random()`-driven selection is modelled by an explicit natural
  number parameter: the source computes `Math.floor(Math.random() * n)`,
  which the embedding renders as `r % n` for an arbitrary `r : Nat`.
* A remote HTTP call is modelled by an `Except Unit _` value carried in
  an environment record: `Except.error ()` stands for a non-2xx response
  or a thrown network / JSON-parse error, `Except.ok` for a parsed body.
* DOM and controller state that the claims mention is collected in an
  `AppState` record; network and on-device calls are logged in a trace
  field so that absence of calls is provable.
-/

/-- Test whether the character list `pat` occurs at the front of `s`
(character-by-character equality). -/
def subAt : List Char → List Char → Bool
  | [], _ => true
  | _ :: _, [] => false
  | a :: as, b :: bs => a == b && subAt as bs

/-- Test whether `pat` occurs as a contiguous sublist of `s` at any
position; this is the semantics of JavaScript `String.includes`. -/
def hasSub (pat : List Char) : List Char → Bool
  | [] => subAt pat []
  | b :: bs => subAt pat (b :: bs) || hasSub pat bs

/-- JavaScript `s.includes(pat)` as a substring test. -/
def strIncludes (s pat : String) : Bool :=
  hasSub pat.data s.data

/-- JavaScript `s.endsWith(pat)`. -/
def strEnds (s pat : String) : Bool :=
  subAt pat.data.reverse s.data.reverse

/-- Lower-case an ASCII letter; other characters are unchanged.  This is
the behaviour of JavaScript `toLowerCase` on the ASCII inputs the
controller deals with. -/
def charLower (c : Char) : Char :=
  if 'A' ≤ c ∧ c ≤ 'Z' then Char.ofNat (c.toNat + 32) else c

/-- JavaScript `s.toLowerCase()` restricted to ASCII case mapping. -/
def strLower (s : String) : String :=
  ⟨s.data.map charLower⟩

/-- Whitespace characters recognised by the trimming model. -/
def isWs (c : Char) : Bool :=
  c == ' ' || c == '\t' || c == '\n' || c == '\r'

/-- JavaScript `s.trim()`: drop whitespace from both ends. -/
def strTrim (s : String) : String :=
  ⟨((s.data.dropWhile isWs).reverse.dropWhile isWs).reverse⟩

/-- JavaScript `s.length` (the controller only handles ASCII text, where
UTF-16 length and character count coincide). -/
def strLen (s : String) : Nat :=
  s.data.length

/-- Split a character list at newline characters; the semantics of the
line structure seen by a multiline-anchored regular expression. -/
def splitLines : List Char → List (List Char)
  | [] => [[]]
  | c :: cs =>
    if c == '\n' then [] :: splitLines cs
    else
      match splitLines cs with
      | [] => [[c]]
      | l :: ls => (c :: l) :: ls

/-- Rejoin lines with newline separators. -/
def joinLines : List (List Char) → List Char
  | [] => []
  | [l] => l
  | l :: ls => l ++ '\n' :: joinLines ls

/-- Line prefixes erased by `enhanceResponse` (source line 254): the
regular expression `^(You are an empathetic|Assistant:|User:).*$` with
the `gm` flags blanks every line starting with one of these. -/
def promptEchoPats : List String :=
  ["You are an empathetic", "Assistant:", "User:"]

/-- Model of `aiResponse.replace(/^(You are an empathetic|Assistant:|User:).*$/gm, "")`
(source line 254): every line starting with one of the three alternatives
is replaced by an empty line; the newline structure is preserved. -/
def stripPromptLines (s : String) : String :=
  ⟨joinLines ((splitLines s.data).map fun l =>
    if promptEchoPats.any (fun p => subAt p.data l) then [] else l)⟩

/-- Canned anxiety responses (source lines 280-284). -/
def anxietyResponses : List String :=
  ["I understand that anxiety can feel overwhelming, especially as a student. Would you like to try a quick breathing exercise together?",
   "Anxiety is very common among students. What specific situation is making you feel anxious right now?",
   "I hear that you\x27re feeling anxious. Remember, these feelings are temporary. Let\x27s talk about some coping strategies."]

/-- Canned stress responses (source lines 285-289). -/
def stressResponses : List String :=
  ["Student life can be incredibly stressful. What\x27s the biggest source of stress for you right now?",
   "I can sense you\x27re feeling stressed. Sometimes breaking things down into smaller, manageable steps helps. What\x27s on your mind?",
   "Stress is a normal part of student life, but it doesn\x27t have to overwhelm you. Let\x27s work through this together."]

/-- Canned depression responses (source lines 290-294). -/
def depressionResponses : List String :=
  ["I\x27m sorry you\x27re going through a difficult time. These feelings are valid, and you don\x27t have to face them alone.",
   "Depression can make everything feel harder, especially balancing studies and personal life. Have you been able to talk to anyone about how you\x27re feeling?",
   "Thank you for sharing something so personal with me. Remember that seeking help is a sign of strength, not weakness."]

/-- Canned default responses (source lines 295-299). -/
def defaultResponses : List String :=
  ["I\x27m here to listen and support you. Can you tell me more about what\x27s on your mind?",
   "It sounds like you\x27re going through something challenging. I\x27m here to help however I can.",
   "Thank you for reaching out. Sometimes just talking about what we\x27re feeling can be really helpful. What would you like to share?"]

/-- The four response categories of `getFallbackResponse`. -/
inductive Category
  | anxiety
  | stress
  | depression
  | default
  deriving DecidableEq

/-- The canned-response list of each category (source lines 279-300). -/
def responsesFor : Category → List String
  | Category.anxiety => anxietyResponses
  | Category.stress => stressResponses
  | Category.depression => depressionResponses
  | Category.default => defaultResponses

/-- All canned strings of the static fallback table. -/
def fallbackTable : List String :=
  anxietyResponses ++ stressResponses ++ depressionResponses ++ defaultResponses

/-- The anxiety keyword test of `getFallbackResponse` (source line 303). -/
def anxietyKey (message : String) : Bool :=
  strIncludes (strLower message) "anxious" || strIncludes (strLower message) "anxiety" ||
    strIncludes (strLower message) "worried"

/-- The stress keyword test of `getFallbackResponse` (source line 305). -/
def stressKey (message : String) : Bool :=
  strIncludes (strLower message) "stress" || strIncludes (strLower message) "overwhelmed" ||
    strIncludes (strLower message) "pressure"

/-- The depression keyword test of `getFallbackResponse` (source line 307). -/
def depressionKey (message : String) : Bool :=
  strIncludes (strLower message) "sad" || strIncludes (strLower message) "depressed" ||
    strIncludes (strLower message) "hopeless"

/-- The keyword classification step of `getFallbackResponse`
(source lines 302-309): first match wins in the order
anxiety, stress, depression; default when nothing matches. -/
def classify (message : String) : Category :=
  if anxietyKey message then Category.anxiety
  else if stressKey message then Category.stress
  else if depressionKey message then Category.depression
  else Category.default

/-- `getFallbackResponse` (source lines 276-313).  The random draw
`Math.floor(Math.random() * categoryResponses.length)` is modelled by
`r % categoryResponses.length` for a caller-supplied `r`. -/
def getFallbackResponse (message : String) (r : Nat) : String :=
  let categoryResponses := responsesFor (classify message)
  categoryResponses.getD (r % categoryResponses.length) ""

/-- The fixed crisis-resource sentence appended by `enhanceResponse`
(source line 270), leading space included. -/
def crisisSentence : String :=
  " Remember, if you\x27re having thoughts of self-harm, please reach out immediately to a crisis helpline or emergency services."

/-- The high-risk keyword list of `enhanceResponse` (source line 268). -/
def seriousTopics : List String :=
  ["suicide", "self-harm", "hopeless", "crisis", "emergency"]

/-- Terminal-punctuation step of `enhanceResponse` (source lines 262-265):
append a period when the text ends with none of `.`, `!`, `?`. -/
def withPunct (s : String) : String :=
  if !(strEnds s ".") && !(strEnds s "!") && !(strEnds s "?") then s ++ "." else s

/-- `enhanceResponse` (source lines 252-274): blank prompt-echo lines and
trim; answers shorter than 20 characters are replaced by a fallback
response; otherwise ensure terminal punctuation and append the crisis
sentence when the user message mentions a high-risk keyword.  `r` is the
random draw used by the inner `getFallbackResponse` call. -/
def enhanceResponse (r : Nat) (aiResponse userMessage : String) : String :=
  if strLen (strTrim (stripPromptLines aiResponse)) < 20 then
    getFallbackResponse userMessage r
  else if seriousTopics.any (fun topic => strIncludes (strLower userMessage) topic) then
    withPunct (strTrim (stripPromptLines aiResponse)) ++ crisisSentence
  else
    withPunct (strTrim (stripPromptLines aiResponse))

/-- JavaScript truthiness selection `a || b` for an optional string
field `a`: the empty string and an absent field both fall through. -/
def jsOrStr (a : Option String) (b : String) : String :=
  match a with
  | some s => if s = "" then b else s
  | none => b

/-- JSON bodies accepted from the speech-to-text endpoint: an object with
an optional `text` field, or an array whose elements are objects with an
optional `text` field. -/
inductive SttJson
  | obj (text : Option String)
  | arr (elems : List (Option String))
  deriving DecidableEq

/-- Result extraction of `speechToText` (source line 161):
`result.text || (result[0] && result[0].text) || ""`. -/
def extractSttText : SttJson → String
  | SttJson.obj t => jsOrStr t ""
  | SttJson.arr [] => ""
  | SttJson.arr (t :: _) => jsOrStr t ""

/-- One element of an array-shaped generation result: an object with
optional `generated_text` and `text` fields. -/
structure GenElem where
  generated_text : Option String
  text : Option String
  deriving DecidableEq

/-- JSON bodies accepted from the text-generation endpoint: an array of
result objects, or a single object with an optional `generated_text`. -/
inductive GenJson
  | arr (elems : List GenElem)
  | obj (generated_text : Option String)
  deriving DecidableEq

/-- Result extraction of `generateAIResponse` (source lines 223-229):
an array with a first element yields
`result[0].generated_text || result[0].text || ""`; an object yields its
`generated_text` when truthy; anything else yields the initial `""`. -/
def extractGenText : GenJson → String
  | GenJson.arr [] => ""
  | GenJson.arr (e :: _) => jsOrStr e.generated_text (jsOrStr e.text "")
  | GenJson.obj gt => jsOrStr gt ""

/-- Chat message senders. -/
inductive Sender
  | user
  | bot
  deriving DecidableEq

/-- One chat transcript entry. -/
structure ChatMsg where
  text : String
  sender : Sender
  deriving DecidableEq

/-- Remote and on-device calls the controller can make, logged in the
state trace. -/
inductive NetCall
  | sttRemote
  | sttDevice
  | genRemote
  | ttsRemote
  | ttsDevice
  deriving DecidableEq

/-- Controller plus DOM state that the specified properties mention.
`hasRecorder` stands for `this.mediaRecorder !== null`; audio chunks are
represented by their byte sizes; `calls` is the trace of remote and
on-device service invocations. -/
structure AppState where
  isListening : Bool
  hasRecorder : Bool
  audioChunks : List Nat
  chat : List ChatMsg
  procVisible : Bool
  procMsg : String
  errorVisible : Bool
  errorMsg : String
  voiceUIListening : Bool
  calls : List NetCall
  deriving DecidableEq

/-- Outcomes of the external world during one interaction:
each remote endpoint either returns a parsed body (`Except.ok`) or fails
with a non-2xx status, network error or JSON-parse error
(`Except.error ()`); availability flags for the on-device facilities;
and the random draws consumed by fallback selection.  `genRandom` feeds
the draw inside `enhanceResponse` as well as the catch-path draw,
`genRandom2` the draw of the final
`aiResponse || getFallbackResponse(message)`. -/
structure Env where
  sttRemote : Except Unit SttJson
  webkitAvailable : Bool
  sttDevice : Except Unit String
  genRemote : Except Unit GenJson
  genRandom : Nat
  genRandom2 : Nat
  ttsRemote : Except Unit Unit
  speechSynthAvailable : Bool

/-- `showProcessingIndicator` (source lines 510-516). -/
def showProcessingIndicator (s : AppState) (message : String) : AppState :=
  { s with procVisible := true, procMsg := message }

/-- `hideProcessingIndicator` (source lines 518-523). -/
def hideProcessingIndicator (s : AppState) : AppState :=
  { s with procVisible := false }

/-- `showError` (source lines 525-536); the 5-second auto-hide timer is
outside the model. -/
def showError (s : AppState) (message : String) : AppState :=
  { s with errorVisible := true, errorMsg := message }

/-- `addMessageToChat` (source lines 457-464): append one transcript
entry. -/
def addMessageToChat (s : AppState) (text : String) (sender : Sender) : AppState :=
  { s with chat := s.chat ++ [⟨text, sender⟩] }

/-- `updateVoiceUI` (source lines 483-500): reflect the listening flag in
the recording controls. -/
def updateVoiceUI (s : AppState) (listening : Bool) : AppState :=
  { s with voiceUIListening := listening }

/-- `speechToText` (source lines 143-173): post the audio to the remote
endpoint; on success extract the text; on failure use the on-device
recognition once when `webkitSpeechRecognition` exists, otherwise
rethrow. -/
def speechToText (env : Env) (s : AppState) : AppState × Except Unit String :=
  match env.sttRemote with
  | Except.ok result =>
    ({ s with calls := s.calls ++ [NetCall.sttRemote] }, Except.ok (extractSttText result))
  | Except.error e =>
    if env.webkitAvailable then
      ({ s with calls := s.calls ++ [NetCall.sttRemote, NetCall.sttDevice] }, env.sttDevice)
    else
      ({ s with calls := s.calls ++ [NetCall.sttRemote] }, Except.error e)

/-- `generateAIResponse` (source lines 195-240): post the prompt to the
remote generation endpoint; on success extract, trim and enhance the
text, substituting a fallback response when the enhanced text is empty;
on any failure return a fallback response.  This function is total: the
`try/catch` of the source absorbs every failure. -/
def generateAIResponse (env : Env) (s : AppState) (message : String) : AppState × String :=
  match env.genRemote with
  | Except.error _ =>
    ({ s with calls := s.calls ++ [NetCall.genRemote] }, getFallbackResponse message env.genRandom)
  | Except.ok result =>
    ({ s with calls := s.calls ++ [NetCall.genRemote] },
      if enhanceResponse env.genRandom (strTrim (extractGenText result)) message = "" then
        getFallbackResponse message env.genRandom2
      else
        enhanceResponse env.genRandom (strTrim (extractGenText result)) message)

/-- `textToSpeech` (source lines 315-343): post the text to the remote
synthesis endpoint; on failure fall back to on-device synthesis when
available, otherwise do nothing.  Playback effects are outside the
claims and abstracted away; the function never throws. -/
def textToSpeech (env : Env) (s : AppState) (text : String) : AppState :=
  match env.ttsRemote with
  | Except.ok _ => { s with calls := s.calls ++ [NetCall.ttsRemote] }
  | Except.error _ =>
    if env.speechSynthAvailable then
      { s with calls := s.calls ++ [NetCall.ttsRemote, NetCall.ttsDevice] }
    else
      { s with calls := s.calls ++ [NetCall.ttsRemote] }

/-- `processVoiceInput` (source lines 109-141): the three-stage pipeline.
Only `speechToText` can throw inside the `try`; the `catch` shows the
error banner and both exits hide the processing indicator.  An empty
transcription (falsy in JS) skips all stages. -/
def processVoiceInput (env : Env) (s : AppState) : AppState :=
  match speechToText env (showProcessingIndicator s "Converting speech to text...") with
  | (sErr, Except.error _) =>
    hideProcessingIndicator (showError sErr "Failed to process voice input")
  | (sOk, Except.ok transcription) =>
    if transcription = "" then hideProcessingIndicator sOk
    else
      hideProcessingIndicator
        (textToSpeech env
          (showProcessingIndicator
            (addMessageToChat
              (generateAIResponse env
                (showProcessingIndicator (addMessageToChat sOk transcription Sender.user)
                  "Generating response...") transcription).1
              (generateAIResponse env
                (showProcessingIndicator (addMessageToChat sOk transcription Sender.user)
                  "Generating response...") transcription).2
              Sender.bot)
            "Converting to speech...")
          (generateAIResponse env
            (showProcessingIndicator (addMessageToChat sOk transcription Sender.user)
              "Generating response...") transcription).2)

/-- `sendTextMessage` (source lines 394-416): a blank message (falsy
`message.trim()`) returns immediately; otherwise append the user entry,
generate, append the bot entry; nothing inside the `try` can throw in
the model, and the indicator is hidden on exit. -/
def sendTextMessage (env : Env) (s : AppState) (message : String) : AppState :=
  if strTrim message = "" then s
  else
    hideProcessingIndicator
      (addMessageToChat
        (generateAIResponse env
          (showProcessingIndicator (addMessageToChat s message Sender.user)
            "Generating response...") message).1
        (generateAIResponse env
          (showProcessingIndicator (addMessageToChat s message Sender.user)
            "Generating response...") message).2
        Sender.bot)

/-- `startVoiceRecording` (source lines 69-98): reset the chunk buffer
(first statement of the `try`), then create and start a recorder.
`recorderOk = false` models a throwing `MediaRecorder` construction, in
which case the buffer has already been reset and the `catch` shows an
error. -/
def startVoiceRecording (recorderOk : Bool) (s : AppState) : AppState :=
  if recorderOk then
    updateVoiceUI { s with audioChunks := [], hasRecorder := true, isListening := true } true
  else
    showError { s with audioChunks := [] } "Failed to start voice recording"

/-- The `ondataavailable` handler (source lines 78-82): push a chunk
whenever its size is positive. -/
def deliverChunk (s : AppState) (size : Nat) : AppState :=
  if 0 < size then { s with audioChunks := s.audioChunks ++ [size] } else s

/-- `stopVoiceRecording` (source lines 100-107): only when a recorder
exists and the listening flag is set does it stop the recorder (the
returned Bool: the `onstop` handler, hence the pipeline, was triggered),
clear the flag and update the UI; otherwise nothing happens. -/
def stopVoiceRecording (s : AppState) : AppState × Bool :=
  if s.hasRecorder && s.isListening then
    (updateVoiceUI { s with isListening := false } false, true)
  else
    (s, false)

/-- Initial controller state: just constructed, nothing recorded or
shown. -/
def st0 : AppState :=
  ⟨false, false, [], [], false, "", false, "", false, []⟩

/-- Environment in which every remote call fails and no on-device
facility exists. -/
def envFail : Env :=
  ⟨Except.error (), false, Except.error (), Except.error (), 0, 0, Except.error (), false⟩

/-- Environment in which the speech-to-text endpoint returns
`{text: "hello"}` and generation fails. -/
def envOkHello : Env :=
  ⟨Except.ok (SttJson.obj (some "hello")), false, Except.error (),
    Except.error (), 0, 0, Except.error (), false⟩

/-- Environment in which the generation endpoint returns a degenerate
(5-character) text. -/
def envShort : Env :=
  ⟨Except.error (), false, Except.error (),
    Except.ok (GenJson.obj (some "short")), 0, 0, Except.error (), false⟩

/-- Environment in which the generation endpoint returns a long clean
text without terminal punctuation. -/
def envLong : Env :=
  ⟨Except.error (), false, Except.error (),
    Except.ok (GenJson.obj (some "It sounds like you are going through a very hard time")),
    0, 0, Except.error (), false⟩

theorem strData_append (a b : String) : (a ++ b).data = a.data ++ b.data := rfl

theorem subAt_self (l : List Char) : ∀ r, subAt l (l ++ r) = true := by
  induction l with
  | nil => intro r; rfl
  | cons a as ih => intro r; simp [subAt, ih]

theorem strEnds_append_self (x p : String) : strEnds (x ++ p) p = true := by
  unfold strEnds
  rw [strData_append, List.reverse_append]
  exact subAt_self _ _

theorem append_ne_empty_right (x p : String) (hp : p.data ≠ []) : x ++ p ≠ "" := by
  intro h
  have hd : (x ++ p).data = String.data "" := by rw [h]
  rw [strData_append] at hd
  have : x.data ++ p.data = [] := hd
  exact hp (List.append_eq_nil.mp this).2

theorem getD_mem_of_lt (l : List String) (n : Nat) (h : n < l.length) (d : String) :
    l.getD n d ∈ l := by
  induction l generalizing n with
  | nil => simp at h
  | cons a as ih =>
    cases n with
    | zero => simp [List.getD]
    | succ k =>
      have hk : k < as.length := by simpa using h
      have := ih k hk
      simp only [List.getD] at this ⊢
      simp only [List.get?_cons_succ]
      exact List.mem_cons_of_mem a this

theorem responsesFor_length (c : Category) : (responsesFor c).length = 3 := by
  cases c <;> rfl

theorem getFallbackResponse_mem (message : String) (r : Nat) :
    getFallbackResponse message r ∈ responsesFor (classify message) := by
  unfold getFallbackResponse
  apply getD_mem_of_lt
  apply Nat.mod_lt
  rw [responsesFor_length]
  omega

theorem responsesFor_subset_table (c : Category) (x : String)
    (hx : x ∈ responsesFor c) : x ∈ fallbackTable := by
  cases c <;> simp [responsesFor, fallbackTable] at hx ⊢ <;> tauto

theorem getFallbackResponse_mem_table (message : String) (r : Nat) :
    getFallbackResponse message r ∈ fallbackTable :=
  responsesFor_subset_table _ _ (getFallbackResponse_mem message r)

set_option maxRecDepth 4096 in
theorem fallbackTable_long (x : String) (hx : x ∈ fallbackTable) : 20 ≤ strLen x := by
  fin_cases hx <;> decide

theorem getFallbackResponse_long (message : String) (r : Nat) :
    20 ≤ strLen (getFallbackResponse message r) :=
  fallbackTable_long _ (getFallbackResponse_mem_table message r)

theorem getFallbackResponse_ne_empty (message : String) (r : Nat) :
    getFallbackResponse message r ≠ "" := by
  intro h
  have := getFallbackResponse_long message r
  rw [h] at this
  simp [strLen] at this

theorem foldl_deliverChunk (post : List Nat) : ∀ s : AppState,
    (post.foldl deliverChunk s).audioChunks
      = s.audioChunks ++ post.filter (fun size => decide (0 < size)) := by
  induction post with
  | nil => intro s; simp
  | cons c cs ih =>
    intro s
    by_cases h : 0 < c <;>
      simp [List.foldl, ih, deliverChunk, List.filter_cons, h]
set_option maxRecDepth 8192 in
/-- Claim C1, counterexample: the claim asserts the crisis sentence also
on the failure path, but when the remote generation call fails,
`generateAIResponse` returns a plain fallback-table string: for the
input "I am thinking about suicide" (which contains "suicide") the
response does not end with the crisis sentence. -/
theorem c1_counterexample :
    strIncludes (strLower "I am thinking about suicide") "suicide" = true
    ∧ strEnds (generateAIResponse envFail st0 "I am thinking about suicide").2
        crisisSentence = false := by
  constructor <;> decide

/-- Claim C1, amended: when the remote generation call succeeds and the
cleaned output is at least 20 characters long, the response to a user
message containing "suicide" (any case) is exactly the cleaned,
punctuation-completed text with the crisis sentence appended once at the
end; on the failure and degenerate paths the response is a fallback-table
string without the sentence. -/
theorem c1_crisis_appended (env : Env) (s : AppState) (m : String) (j : GenJson)
    (h1 : env.genRemote = Except.ok j)
    (h2 : 20 ≤ strLen (strTrim (stripPromptLines (strTrim (extractGenText j)))))
    (h3 : strIncludes (strLower m) "suicide" = true) :
    (generateAIResponse env s m).2
      = withPunct (strTrim (stripPromptLines (strTrim (extractGenText j)))) ++ crisisSentence
    ∧ strEnds (generateAIResponse env s m).2 crisisSentence = true := by
  have hser : seriousTopics.any (fun topic => strIncludes (strLower m) topic) = true := by
    simp only [seriousTopics, List.any_cons, Bool.or_eq_true]
    exact Or.inl h3
  have henh : enhanceResponse env.genRandom (strTrim (extractGenText j)) m
      = withPunct (strTrim (stripPromptLines (strTrim (extractGenText j)))) ++ crisisSentence := by
    unfold enhanceResponse
    rw [if_neg (by omega), if_pos hser]
  have hne : withPunct (strTrim (stripPromptLines (strTrim (extractGenText j))))
      ++ crisisSentence ≠ "" :=
    append_ne_empty_right _ _ (by decide)
  have hgen : (generateAIResponse env s m).2
      = withPunct (strTrim (stripPromptLines (strTrim (extractGenText j)))) ++ crisisSentence := by
    unfold generateAIResponse
    rw [h1]
    simp only [henh, if_neg hne]
  exact ⟨hgen, by rw [hgen]; exact strEnds_append_self _ _⟩

/-- Claim C1 witness: a concrete successful long generation for a
message containing "suicide" ends with the crisis sentence. -/
theorem c1_witness :
    strEnds (generateAIResponse envLong st0 "I have thoughts of suicide").2
      crisisSentence = true :=
  (c1_crisis_appended envLong st0 "I have thoughts of suicide"
    (GenJson.obj (some "It sounds like you are going through a very hard time"))
    rfl (by decide) (by decide)).2

/-- Claim C2: whenever the remote generation body parses but its cleaned
form (prompt-echo lines stripped, whitespace trimmed) is shorter than 20
characters, `generateAIResponse` returns a fallback-table string and
never the cleaned remote output itself. -/
theorem c2_degenerate_fallback (env : Env) (s : AppState) (m : String) (j : GenJson)
    (h1 : env.genRemote = Except.ok j)
    (h2 : strLen (strTrim (stripPromptLines (strTrim (extractGenText j)))) < 20) :
    (generateAIResponse env s m).2 ∈ fallbackTable
    ∧ (generateAIResponse env s m).2 ≠ strTrim (stripPromptLines (strTrim (extractGenText j))) := by
  have henh : enhanceResponse env.genRandom (strTrim (extractGenText j)) m
      = getFallbackResponse m env.genRandom := by
    unfold enhanceResponse
    rw [if_pos h2]
  have hgen : (generateAIResponse env s m).2 = getFallbackResponse m env.genRandom := by
    unfold generateAIResponse
    rw [h1]
    simp only [henh, if_neg (getFallbackResponse_ne_empty m env.genRandom)]
  refine ⟨hgen ▸ getFallbackResponse_mem_table m env.genRandom, ?_⟩
  rw [hgen]
  intro hEq
  have hlong := getFallbackResponse_long m env.genRandom
  rw [hEq] at hlong
  omega

/-- Claim C2 witness: a concrete degenerate generation result yields a
fallback-table string. -/
theorem c2_witness :
    (generateAIResponse envShort st0 "hello there").2 ∈ fallbackTable :=
  (c2_degenerate_fallback envShort st0 "hello there" (GenJson.obj (some "short"))
    rfl (by decide)).1

/-- Claim C3: when the remote generation call fails, `generateAIResponse`
returns a fallback-table string; the model of the function is total, so
no failure ever reaches the caller. -/
theorem c3_failure_fallback (env : Env) (s : AppState) (m : String)
    (h : env.genRemote = Except.error ()) :
    (generateAIResponse env s m).2 ∈ fallbackTable := by
  have hgen : (generateAIResponse env s m).2 = getFallbackResponse m env.genRandom := by
    unfold generateAIResponse
    rw [h]
  exact hgen ▸ getFallbackResponse_mem_table m env.genRandom

/-- Claim C3 witness: the all-failing environment yields a fallback-table
string. -/
theorem c3_witness :
    (generateAIResponse envFail st0 "hello there").2 ∈ fallbackTable :=
  c3_failure_fallback envFail st0 "hello there" rfl

/-- Claim C4: fallback selection is deterministic and total; the chosen
category follows the first-match priority anxiety, stress, depression,
default over case-insensitive substring keyword tests, the selected
response belongs to the chosen category, and each category holds exactly
3 canned strings. -/
theorem c4_classifier (m : String) (r : Nat) :
    getFallbackResponse m r ∈ responsesFor (classify m)
    ∧ (responsesFor (classify m)).length = 3
    ∧ (anxietyKey m = true → classify m = Category.anxiety)
    ∧ (anxietyKey m = false → stressKey m = true → classify m = Category.stress)
    ∧ (anxietyKey m = false → stressKey m = false → depressionKey m = true →
        classify m = Category.depression)
    ∧ (anxietyKey m = false → stressKey m = false → depressionKey m = false →
        classify m = Category.default) := by
  refine ⟨getFallbackResponse_mem m r, responsesFor_length _, ?_, ?_, ?_, ?_⟩ <;>
    intros <;> simp [classify, *]

/-- Claim C4 witness: a message with an anxiety keyword is classified as
anxiety and the selected response lies in the anxiety list. -/
theorem c4_witness :
    classify "I feel anxious" = Category.anxiety
    ∧ getFallbackResponse "I feel anxious" 1 ∈ responsesFor (classify "I feel anxious") :=
  ⟨(c4_classifier "I feel anxious" 1).2.2.1 (by decide),
   (c4_classifier "I feel anxious" 1).1⟩

/-- Claim C5: on a remote speech-to-text failure, `speechToText` makes
exactly one on-device fallback attempt when the facility exists (trace
gains exactly one `sttDevice` entry and the attempt result is returned);
when it does not exist the failure propagates, and `processVoiceInput`
aborts: the chat is unchanged, the error banner shows the failure
message and the processing indicator ends hidden. -/
theorem c5_stt_failure (env : Env) (s : AppState)
    (h : env.sttRemote = Except.error ()) :
    (env.webkitAvailable = true →
      speechToText env s
        = ({ s with calls := s.calls ++ [NetCall.sttRemote, NetCall.sttDevice] }, env.sttDevice))
    ∧ (env.webkitAvailable = false →
        speechToText env s
          = ({ s with calls := s.calls ++ [NetCall.sttRemote] }, Except.error ())
        ∧ (processVoiceInput env s).chat = s.chat
        ∧ (processVoiceInput env s).errorVisible = true
        ∧ (processVoiceInput env s).errorMsg = "Failed to process voice input"
        ∧ (processVoiceInput env s).procVisible = false) := by
  constructor
  · intro hw
    unfold speechToText
    rw [h]
    simp [hw]
  · intro hw
    have hstt : ∀ t : AppState, speechToText env t
        = ({ t with calls := t.calls ++ [NetCall.sttRemote] }, Except.error ()) := by
      intro t
      unfold speechToText
      rw [h]
      simp [hw]
    refine ⟨hstt s, ?_, ?_, ?_, ?_⟩ <;>
      · unfold processVoiceInput
        rw [hstt]
        rfl

/-- Claim C5 witness: with the remote call failing and no on-device
facility, the failure is returned, the chat stays empty and the banner
is shown. -/
theorem c5_witness :
    speechToText envFail st0
      = ({ st0 with calls := st0.calls ++ [NetCall.sttRemote] }, Except.error ())
    ∧ (processVoiceInput envFail st0).chat = st0.chat
    ∧ (processVoiceInput envFail st0).errorVisible = true :=
  ⟨((c5_stt_failure envFail st0 rfl).2 rfl).1,
   ((c5_stt_failure envFail st0 rfl).2 rfl).2.1,
   ((c5_stt_failure envFail st0 rfl).2 rfl).2.2.1⟩

/-- Claim C6: both `processVoiceInput` (for every environment, hence on
every success or failure path) and `sendTextMessage` with non-blank
input leave the processing indicator hidden when they end. -/
theorem c6_indicator_cleared (env : Env) (s : AppState) (m : String)
    (hm : strTrim m ≠ "") :
    (processVoiceInput env s).procVisible = false
    ∧ (sendTextMessage env s m).procVisible = false := by
  constructor
  · unfold processVoiceInput
    split
    · rfl
    · split <;> rfl
  · unfold sendTextMessage
    rw [if_neg hm]
    rfl

/-- Claim C6 witness: a concrete run in the all-failing environment ends
with a hidden indicator on both entry points. -/
theorem c6_witness :
    (processVoiceInput envFail st0).procVisible = false
    ∧ (sendTextMessage envFail st0 "hello").procVisible = false :=
  c6_indicator_cleared envFail st0 "hello" (by decide)

/-- Claim C7: a blank (empty or whitespace-only) message makes
`sendTextMessage` a silent no-op: the entire state, including the chat
transcript and the call trace, is returned unchanged. -/
theorem c7_blank_noop (env : Env) (s : AppState) (m : String)
    (hm : strTrim m = "") :
    sendTextMessage env s m = s := by
  unfold sendTextMessage
  rw [if_pos hm]

/-- Claim C7 witness: a whitespace-only message leaves the initial state
untouched. -/
theorem c7_witness : sendTextMessage envOkHello st0 "   " = st0 :=
  c7_blank_noop envOkHello st0 "   " (by decide)

/-- Claim C8: `speechToText` extracts the top-level `text` field when
present, otherwise the `text` field of the first list element, otherwise
the empty string; absence of both shapes is not an error, and a
successful remote call returns the extracted text. -/
theorem c8_stt_extraction :
    (∀ t, extractSttText (SttJson.obj (some t)) = t)
    ∧ (∀ t rest, extractSttText (SttJson.arr (some t :: rest)) = t)
    ∧ extractSttText (SttJson.obj none) = ""
    ∧ extractSttText (SttJson.arr []) = ""
    ∧ (∀ rest, extractSttText (SttJson.arr (none :: rest)) = "")
    ∧ (∀ (env : Env) (s : AppState) (j : SttJson), env.sttRemote = Except.ok j →
        speechToText env s
          = ({ s with calls := s.calls ++ [NetCall.sttRemote] },
             Except.ok (extractSttText j))) := by
  refine ⟨?_, ?_, rfl, rfl, fun rest => rfl, ?_⟩
  · intro t
    by_cases ht : t = "" <;> simp [extractSttText, jsOrStr, ht]
  · intro t rest
    by_cases ht : t = "" <;> simp [extractSttText, jsOrStr, ht]
  · intro env s j hj
    unfold speechToText
    rw [hj]

/-- Claim C8 witness: a concrete `{text: "hello"}` body is extracted and
returned by `speechToText`. -/
theorem c8_witness :
    speechToText envOkHello st0
      = ({ st0 with calls := st0.calls ++ [NetCall.sttRemote] },
         Except.ok (extractSttText (SttJson.obj (some "hello")))) :=
  c8_stt_extraction.2.2.2.2.2 envOkHello st0 (SttJson.obj (some "hello")) rfl

/-- Claim C9: `startVoiceRecording` resets the chunk buffer on both its
success and failure paths, so after any sequence of post-restart chunk
deliveries the buffer holds exactly the post-restart chunks of positive
size, whatever was buffered before. -/
theorem c9_start_resets (recorderOk : Bool) (s : AppState) (post : List Nat) :
    (post.foldl deliverChunk (startVoiceRecording recorderOk s)).audioChunks
      = post.filter (fun size => decide (0 < size)) := by
  rw [foldl_deliverChunk]
  cases recorderOk <;> simp [startVoiceRecording, updateVoiceUI, showError]

/-- Claim C10: calling `stopVoiceRecording` with no active recording (no
recorder or listening flag cleared) changes nothing and does not trigger
the processing pipeline. -/
theorem c10_stop_inactive_noop (s : AppState)
    (h : s.hasRecorder = false ∨ s.isListening = false) :
    stopVoiceRecording s = (s, false) := by
  unfold stopVoiceRecording
  rcases h with h | h <;> simp [h]

/-- Claim C10 witness: stopping in the initial (idle) state is a no-op. -/
theorem c10_witness : stopVoiceRecording st0 = (st0, false) :=
  c10_stop_inactive_noop st0 (Or.inl rfl)
